import Mathlib

/-!
Verification of the Marketplace Listing Synthesis & Pricing Intelligence
Engine (`src/app.py`) against its natural-language specification.

The Python source is shallowly embedded: each relevant Python function is
translated into an executable Lean definition over `String`, `List`, `ℚ`,
`Option` and `Bool`.  Python string primitives (`str.lower`, `str.strip`,
`str.split`, `str.join`, the `in` substring test, slicing) are modelled by
explicit structurally recursive functions over `List Char` so that every
definition evaluates by `decide`/`rfl`.  All inputs handled by the claims
are ASCII, where these models agree with Python's semantics.
-/

namespace Apoc

/-- ASCII lower-casing of one character, as Python `str.lower` acts on the
ASCII range (all table keys and claim inputs are ASCII). -/
def lowCh (c : Char) : Char :=
  if 65 ≤ c.toNat ∧ c.toNat ≤ 90 then Char.ofNat (c.toNat + 32) else c

/-- Python `s.lower()` on ASCII text. -/
def lowerStr (s : String) : String := ⟨s.data.map lowCh⟩

/-- Whitespace as stripped by Python `str.strip` (ASCII subset). -/
def isWs (c : Char) : Bool :=
  c = ' ' || c = '\t' || c = '\n' || c = '\r'

/-- Python `s.strip()`: drop leading and trailing whitespace. -/
def pyStrip (s : String) : String :=
  ⟨((s.data.dropWhile isWs).reverse.dropWhile isWs).reverse⟩

/-- Split a character list at every occurrence of `c`;
Python `s.split(c)` (never returns an empty list). -/
def splitCh (c : Char) : List Char → List (List Char)
  | [] => [[]]
  | x :: xs =>
    match splitCh c xs with
    | [] => [[x]]
    | h :: t => if x = c then [] :: h :: t else (x :: h) :: t

/-- Python `s.split(">")`. -/
def splitGt (s : String) : List String :=
  (splitCh '>' s.data).map fun l => ⟨l⟩

/-- Python `sep.join(xs)`. -/
def joinStr (sep : String) : List String → String
  | [] => ""
  | [x] => x
  | x :: y :: xs => x ++ sep ++ joinStr sep (y :: xs)

/-- Does `p` occur at the head of `l`?  (Helper for the substring test.) -/
def leadMatch : List Char → List Char → Bool
  | [], _ => true
  | _ :: _, [] => false
  | a :: as, b :: bs => a = b && leadMatch as bs

/-- Contiguous-sublist test on character lists. -/
def hasSub (needle : List Char) : List Char → Bool
  | [] => leadMatch needle []
  | b :: bs => leadMatch needle (b :: bs) || hasSub needle bs

/-- Python `needle in hay` substring test. -/
def strIn (needle hay : String) : Bool := hasSub needle.data hay.data

/-! ## Category resolver (`src/app.py` lines 50–65, 1086–1095) -/

/-- The static category table `CATEGORY_MAP` (`src/app.py` lines 50–65),
insertion order preserved. -/
def CATEGORY_MAP : List (String × String) :=
  [("men > sweaters > cardigan", "11484"), ("men > sweaters > pullover", "11484"),
   ("men > sweaters", "11484"), ("men > shirts > dress shirt", "57991"),
   ("men > shirts > t-shirt", "15687"), ("men > shirts > casual", "57990"),
   ("men > shirts", "57990"), ("men > jackets", "57988"), ("men > coats", "57988"),
   ("men > vests", "15691"), ("men > pants > jeans", "11483"), ("men > jeans", "11483"),
   ("men > pants > dress", "57989"), ("men > pants", "57989"), ("men > shorts", "15689"),
   ("men > suits > blazer", "3002"), ("men > suits", "3002"), ("men > blazer", "3002"),
   ("men > activewear", "185101"), ("men > swimwear", "15690"),
   ("women > sweaters", "63866"), ("women > tops", "53159"), ("women > blouses", "53159"),
   ("women > dresses", "63861"), ("women > jackets", "63862"), ("women > coats", "63862"),
   ("women > vests", "63862"), ("women > pants > jeans", "11554"), ("women > jeans", "11554"),
   ("women > pants", "63863"), ("women > skirts", "63864"), ("women > shorts", "11555"),
   ("women > activewear", "185099"), ("women > swimwear", "63867"),
   ("default", "57990")]

/-- Python `key in CATEGORY_MAP` / `CATEGORY_MAP[key]` as one lookup. -/
def catLookup (k : String) : Option String :=
  (CATEGORY_MAP.find? fun p => p.1 = k).map fun p => p.2

/-- The prefix key tried at length `l`:
`" > ".join(p.strip() for p in parts[:l])` (`src/app.py` line 1092). -/
def joinKey (parts : List String) (l : ℕ) : String :=
  joinStr " > " ((parts.take l).map pyStrip)

/-- The loop `for l in range(len(parts) - 1, 0, -1)` of `get_cat_id`
(`src/app.py` lines 1091–1094): try prefix lengths `l, l-1, …, 1`. -/
def searchShort (parts : List String) : ℕ → Option String
  | 0 => none
  | l + 1 =>
    match catLookup (joinKey parts (l + 1)) with
    | some v => some v
    | none => searchShort parts l

/-- `get_cat_id` (`src/app.py` lines 1086–1095). -/
def get_cat_id (s : String) : String :=
  let key := pyStrip (lowerStr s)
  match catLookup key with
  | some v => v
  | none =>
    let parts := splitGt key
    match searchShort parts (parts.length - 1) with
    | some v => v
    | none => (catLookup "default").getD ""

/-! ## Rounding (Python `round(x, k)`)

Python's `round` rounds half to even.  On the exact rational values reached
by the claims this agrees with `round` on IEEE doubles. -/

/-- The integer nearest to `y`, ties to even (Python `round(y)` on exact
values). -/
def rInt (y : ℚ) : ℤ :=
  let n := ⌊y⌋
  let f := y - n
  if f < 1 / 2 then n
  else if 1 / 2 < f then n + 1
  else if n % 2 = 0 then n else n + 1

/-- Python `round(q, 2)` on exact values. -/
def round2 (q : ℚ) : ℚ := (rInt (q * 100) : ℚ) / 100

/-- Python `round(q, 1)` on exact values. -/
def round1 (q : ℚ) : ℚ := (rInt (q * 10) : ℚ) / 10

/-- Python `min(l)` for non-empty `l` (0 on `[]`, which the call sites guard). -/
def listMin : List ℚ → ℚ
  | [] => 0
  | h :: t => t.foldl min h

/-- Python `max(l)` for non-empty `l` (0 on `[]`, which the call sites guard). -/
def listMax : List ℚ → ℚ
  | [] => 0
  | h :: t => t.foldl max h

/-! ## Price recommendation engine (`src/app.py` lines 571–598)

The handler extracts the non-empty sold prices from the Finding-API items
(lines 579–584); the embedding takes that price list directly.  Python's
`list.sort()` is modelled by `List.insertionSort (· ≤ ·)`: over `ℚ` any
ascending sort of the same multiset is the same list.  For the sample sizes
reachable here (`limit=50`), `int(n * 0.25) = n * 25 / 100` and
`int(n * 0.85) = n * 85 / 100` exactly. -/

structure PriceRec where
  quick_sell : ℚ
  market : ℚ
  premium : ℚ
  sample_size : ℕ
  range_low : ℚ
  range_high : ℚ
deriving DecidableEq, Repr

/-- `price_recommend` (`src/app.py` lines 585–595): `none` models the
"No sold data available for pricing" early return. -/
def price_recommend (prices : List ℚ) : Option PriceRec :=
  if prices = [] then none
  else
    let sorted := prices.insertionSort (· ≤ ·)
    let n := sorted.length
    some
      { quick_sell := round2 (sorted.getD (max 0 (n * 25 / 100)) 0)
        market := round2 (sorted.sum / n)
        premium := round2 (sorted.getD (min (n - 1) (n * 85 / 100)) 0)
        sample_size := n
        range_low := round2 (listMin sorted)
        range_high := round2 (listMax sorted) }

/-- The price-tier computation as the spec words it: quick_sell at index
`⌊n·0.25⌋` and premium at index `⌊n·0.85⌋`, with BOTH indices clamped to
`[0, n − 1]` (the code clamps quick_sell only from below and premium only
from above).  Used to compare the spec's description with
`price_recommend`. -/
def price_recommend_spec (prices : List ℚ) : Option PriceRec :=
  if prices = [] then none
  else
    let sorted := prices.insertionSort (· ≤ ·)
    let n := sorted.length
    some
      { quick_sell := round2 (sorted.getD (min (n - 1) (max 0 (n * 25 / 100))) 0)
        market := round2 (sorted.sum / n)
        premium := round2 (sorted.getD (min (n - 1) (max 0 (n * 85 / 100))) 0)
        sample_size := n
        range_low := round2 (listMin sorted)
        range_high := round2 (listMax sorted) }

/-! ## Sold-history intelligence (`src/app.py` lines 524–568)

The handler extracts the non-empty sold prices, the count of active items
and the parseable day spans from the two Finding-API result lists
(lines 535–551); the embedding takes those directly. -/

structure SoldStats where
  sold_count : ℕ
  active_count : ℕ
  sell_through_rate : ℚ
  avg_sold_price : ℚ
  range_low : ℚ
  range_high : ℚ
  avg_days_to_sell : ℚ
deriving DecidableEq, Repr

/-- The statistics block of `sold_history_api` (`src/app.py` lines 550–565). -/
def sold_history_stats (sold_prices : List ℚ) (active_count : ℕ)
    (days_list : List ℤ) : SoldStats :=
  let sold_count := sold_prices.length
  let total := sold_count + active_count
  { sold_count := sold_count
    active_count := active_count
    sell_through_rate := if 0 < total then round2 (sold_count / (total : ℚ)) else 0
    avg_sold_price :=
      if sold_prices = [] then 0 else round2 (sold_prices.sum / (sold_count : ℚ))
    range_low := if sold_prices = [] then 0 else round2 (listMin sold_prices)
    range_high := if sold_prices = [] then 0 else round2 (listMax sold_prices)
    avg_days_to_sell :=
      if days_list = [] then 0
      else round1 ((days_list.map (Int.cast : ℤ → ℚ)).sum / (days_list.length : ℚ)) }

/-! ## Item-specifics builder (`src/app.py` lines 1122–1200)

`data` is a JSON-like dict; the fields consumed by `build_specifics` are
modelled as a structure.  `none` models an absent key (or a JSON `null`,
which every consuming expression treats the same way here); string
sentinels such as `"null"` stay as strings, exactly as in the dict. -/

structure GarmentData where
  gender : Option String := none
  category : String := ""
  style_details : List String := []
  vintage : Bool := false
  material : Option String := none
  color : Option String := none
  size : Option String := none
  brand : Option String := none
  sleeve_length : Option String := none
  neckline : Option String := none
  pattern : Option String := none
  closure : Option String := none
  fit : Option String := none
  occasion : Option String := none
  season : Option String := none
  lining_material : Option String := none
  vintage_era : Option String := none
  fabric_type : Option String := none
  theme : Option String := none
  collar_style : Option String := none
  cuff_style : Option String := none
  sleeve_type : Option String := none
  rise : Option String := none
  leg_style : Option String := none
  jacket_length : Option String := none
  dress_length : Option String := none
  character : Option String := none
  performance_activity : Option String := none
  insulation_material : Option String := none
  garment_care : Option String := none
  accents : List String := []
  features : List String := []
  graphic_print : Bool := false
  handmade : Bool := false
  m_chest : Option String := none
  m_waist : Option String := none
  m_inseam : Option String := none
  origin : Option String := none

/-- Python `(x or default)` for an optional string. -/
def pyOrDefault (o : Option String) (d : String) : String :=
  match o with
  | none => d
  | some "" => d
  | some s => s

/-- `material = (data.get("material") or "").strip()` (line 1127). -/
def materialStr (d : GarmentData) : String := pyStrip (d.material.getD "")

/-- `color = (data.get("color") or "").strip()` (line 1128). -/
def colorStr (d : GarmentData) : String := pyStrip (d.color.getD "")

/-- `size = (data.get("size") or "").strip()` (line 1129). -/
def sizeStr (d : GarmentData) : String := pyStrip (d.size.getD "")

/-- `brand = (data.get("brand") or "Unknown").strip()` (line 1130). -/
def brandStr (d : GarmentData) : String := pyStrip (pyOrDefault d.brand "Unknown")

/-- `dept = {"Men": "Men", …}.get(gender, "Unisex")` with
`gender = data.get("gender", "Unisex")` (lines 1123, 1131). -/
def deptOf (g : Option String) : String :=
  match g with
  | some "Men" => "Men"
  | some "Women" => "Women"
  | some "Boys" => "Boys"
  | some "Girls" => "Girls"
  | _ => "Unisex"

/-- `gtype = cat.split(">")[-1].strip() if ">" in cat else (cat or "Clothing")`
(line 1132). -/
def gtypeOf (cat : String) : String :=
  if strIn ">" cat then pyStrip ((splitGt cat).getLastD "")
  else if cat = "" then "Clothing" else cat

/-- `kw` (line 1125): style details plus (non-empty) category, joined and
lower-cased. -/
def kwOf (d : GarmentData) : String :=
  lowerStr (joinStr " "
    (d.style_details ++ (if d.category = "" then [] else [d.category])))

/-- `sk = kw + " " + " ".join(style_details)` (line 1133). -/
def skOf (d : GarmentData) : String :=
  kwOf d ++ " " ++ joinStr " " d.style_details

/-- The style classifier (lines 1134–1136): first matching keyword family
wins, in the order Vintage → Activewear → Business → Casual. -/
def styleOf (d : GarmentData) : String :=
  if d.vintage || (["vintage", "retro", "70s", "80s", "90s"].any fun w => strIn w (skOf d))
  then "Vintage"
  else if ["athletic", "sport", "activewear", "gym"].any (fun w => strIn w (skOf d))
  then "Activewear"
  else if ["formal", "suit", "blazer"].any (fun w => strIn w (skOf d))
  then "Business"
  else "Casual"

/-- The material vocabulary `mm` (lines 1137–1140), insertion order
preserved. -/
def mmList : List (String × String) :=
  [("cotton", "Cotton"), ("denim", "Denim"), ("wool", "Wool"), ("leather", "Leather"),
   ("polyester", "Polyester"), ("nylon", "Nylon"), ("silk", "Silk"), ("linen", "Linen"),
   ("cashmere", "Cashmere"), ("fleece", "Fleece"), ("velvet", "Velvet"),
   ("corduroy", "Corduroy"), ("tweed", "Tweed"), ("flannel", "Flannel"),
   ("canvas", "Canvas"), ("suede", "Suede"), ("rayon", "Rayon"), ("acrylic", "Acrylic"),
   ("viscose", "Viscose")]

/-- `om = next((v for k, v in mm.items() if k in material.lower()),
material if material else "Cotton")` (line 1141). -/
def omOf (d : GarmentData) : String :=
  match mmList.find? (fun p => strIn p.1 (lowerStr (materialStr d))) with
  | some p => p.2
  | none => if materialStr d = "" then "Cotton" else materialStr d

/-- The color vocabulary `cm` (lines 1142–1144), insertion order preserved. -/
def cmList : List (String × String) :=
  [("black", "Black"), ("white", "White"), ("gray", "Gray"), ("grey", "Gray"),
   ("navy", "Navy"), ("blue", "Blue"), ("red", "Red"), ("green", "Green"),
   ("brown", "Brown"), ("beige", "Beige"), ("cream", "Cream"), ("pink", "Pink"),
   ("purple", "Purple"), ("multicolor", "Multicolor"), ("multi", "Multicolor")]

/-- `ec = next((v for k, v in cm.items() if k in color.lower()), color or "Black")`
(line 1145). -/
def ecOf (d : GarmentData) : String :=
  match cmList.find? (fun p => strIn p.1 (lowerStr (colorStr d))) with
  | some p => p.2
  | none => if colorStr d = "" then "Black" else colorStr d

/-- `st = "Plus" if any(x in sl2 for x in ["xxl","2xl","3xl","4xl","plus"])
else "Regular"` (lines 1146–1147). -/
def stOf (d : GarmentData) : String :=
  if ["xxl", "2xl", "3xl", "4xl", "plus"].any (fun x => strIn x (lowerStr (sizeStr d)))
  then "Plus" else "Regular"

/-- Accepted sleeve-length values (line 1149). -/
def sleeveAllowed : List String :=
  ["Long Sleeve", "Short Sleeve", "3/4 Sleeve", "Sleeveless", "Cap Sleeve"]

/-- Sleeve-length validation (lines 1148–1150): invalid or missing values
become `"Long Sleeve"`. -/
def sleeveOf (d : GarmentData) : String :=
  let s := d.sleeve_length.getD ""
  if s ∈ sleeveAllowed then s else "Long Sleeve"

/-- Accepted neckline values (lines 1152–1153). -/
def neckAllowed : List String :=
  ["Crew Neck", "V-Neck", "Round Neck", "Scoop Neck", "Turtleneck", "Mock Neck",
   "Collared", "Hooded", "Polo", "Henley", "Boat Neck", "Cowl Neck", "Square Neck",
   "Off Shoulder", "Strapless"]

/-- Neckline validation (lines 1151–1154): invalid or missing becomes `""`. -/
def neckOf (d : GarmentData) : String :=
  let s := d.neckline.getD ""
  if s ∈ neckAllowed then s else ""

/-- `"Size"` pair value: `size or "See Description"` (line 1161). -/
def sizePairV (d : GarmentData) : String :=
  if sizeStr d = "" then "See Description" else sizeStr d

/-- The ten unconditional `specs` entries (lines 1161–1163). -/
def baseSpecs (d : GarmentData) : List (String × String) :=
  [("Brand", brandStr d), ("Size", sizePairV d), ("Color", ecOf d),
   ("Department", deptOf d.gender), ("Type", gtypeOf d.category),
   ("Style", styleOf d), ("Sleeve Length", sleeveOf d),
   ("Outer Shell Material", omOf d), ("Size Type", stOf d),
   ("Vintage", if d.vintage then "Yes" else "No")]

/-- Python `v and v not in (sentinels…)`: keep a value that is non-empty
and not one of the blocked sentinel strings. -/
def keepVal (s : String) (blocked : List String) : Bool :=
  s ≠ "" && !(blocked.contains s)

/-- A conditionally appended pair (the `if v and v not in (…): specs.append`
pattern of lines 1164–1199). -/
def optPair (name : String) (v : Option String) (blocked : List String) :
    List (String × String) :=
  match v with
  | none => []
  | some s => if keepVal s blocked then [(name, s)] else []

/-- A measurement pair with unit suffix (`lines 1195–1197`). -/
def mPair (name : String) (v : Option String) : List (String × String) :=
  match v with
  | none => []
  | some m => if m ≠ "" then [(name, m ++ " in")] else []

/-- All conditional `specs` appends (lines 1164–1199), source order. -/
def extraSpecs (d : GarmentData) : List (String × String) :=
  (if neckOf d ≠ "" then [("Neckline", neckOf d)] else [])
  ++ optPair "Pattern" d.pattern ["null"]
  ++ optPair "Closure" d.closure ["null", "None"]
  ++ optPair "Fit" d.fit ["null"]
  ++ optPair "Occasion" d.occasion ["null"]
  ++ optPair "Season" d.season ["null"]
  ++ optPair "Lining Material" d.lining_material ["null"]
  ++ optPair "Decade" d.vintage_era ["null"]
  ++ optPair "Fabric Type" d.fabric_type ["null", "None"]
  ++ optPair "Theme" d.theme ["null", "None"]
  ++ optPair "Collar Style" d.collar_style ["null", "None"]
  ++ optPair "Cuff Style" d.cuff_style ["null", "None"]
  ++ optPair "Sleeve Type" d.sleeve_type ["null", "None"]
  ++ optPair "Rise" d.rise ["null", "None"]
  ++ optPair "Leg Style" d.leg_style ["null", "None"]
  ++ optPair "Jacket/Coat Length" d.jacket_length ["null", "None"]
  ++ optPair "Dress Length" d.dress_length ["null", "None"]
  ++ optPair "Character" d.character ["null", "None"]
  ++ optPair "Performance/Activity" d.performance_activity ["null", "None"]
  ++ optPair "Insulation Material" d.insulation_material ["null", "None"]
  ++ optPair "Garment Care" d.garment_care ["null", "None"]
  ++ (d.accents.filterMap fun a =>
        if keepVal a ["null"] then some ("Accents", a) else none)
  ++ (d.features.filterMap fun f =>
        if keepVal f ["null"] then some ("Features", f) else none)
  ++ (if d.graphic_print then [("Graphic Print", "Yes")] else [])
  ++ (if d.handmade then [("Handmade", "Yes")] else [])
  ++ mPair "Chest Size" d.m_chest
  ++ mPair "Waist Size" d.m_waist
  ++ mPair "Inseam" d.m_inseam
  ++ optPair "Country/Region of Manufacture" d.origin ["null"]

/-- The emitted (name, value) pairs: the full `specs` list after the final
`if v` filter of line 1200. -/
def build_specifics_pairs (d : GarmentData) : List (String × String) :=
  (baseSpecs d ++ extraSpecs d).filter fun p => p.2 ≠ ""

/-- `build_specifics` (line 1200): the pairs serialised as XML. -/
def build_specifics (d : GarmentData) : String :=
  String.join ((build_specifics_pairs d).map fun p =>
    "<NameValueList><Name>" ++ p.1 ++ "</Name><Value>" ++ p.2 ++ "</Value></NameValueList>")

/-! ## Publish pipeline tail (`src/app.py` lines 601–775)

`upload_pic` returns a hosted URL or `None` per photo; the batch result of
`asyncio.gather` (line 678) is modelled as a `List (Option String)`.  The
parsed XML submission response (lines 754–769) is modelled by
`EbayResponse`: the `Ack` element text, the `ItemID` element text, and the
`Errors/LongMessage` texts.  The returned Python dict is modelled as an
ordered key/value list with string and boolean values. -/

inductive JVal where
  | s (v : String)
  | b (v : Bool)
deriving DecidableEq, Repr

structure EbayResponse where
  ack : Option String := none
  item_id : Option String := none
  long_messages : List String := []
deriving DecidableEq, Repr

/-- `pics = [u for u in upload_results if u]` (line 679): the successful
URLs only, order preserved. -/
def pics_of (uploadResults : List (Option String)) : List String :=
  uploadResults.filterMap id

/-- `px = "".join(f"<PictureURL>{u}</PictureURL>" for u in pics[:12])`
(line 681). -/
def pictureXml (uploadResults : List (Option String)) : String :=
  String.join (((pics_of uploadResults).take 12).map fun u =>
    "<PictureURL>" ++ u ++ "</PictureURL>")

/-- The result dict built from the submission response
(`src/app.py` lines 756–769). -/
def publishResult (resp : EbayResponse) : List (String × JVal) :=
  if resp.ack = some "Success" ∨ resp.ack = some "Warning" then
    [("success", JVal.b true), ("item_id", JVal.s (resp.item_id.getD "?")),
     ("url", JVal.s ("https://www.ebay.com/itm/" ++ resp.item_id.getD "?"))]
  else
    let errs := joinStr "\n" (resp.long_messages.filter fun m => m ≠ "")
    [("success", JVal.b false),
     ("error", JVal.s (if errs = "" then "Unknown eBay error" else errs))]

/-- Title truncation `(data.get("title", "") or "")[:80]` (line 682),
Python slicing counted in code points. -/
def truncTitle (title : String) : String := ⟨title.data.take 80⟩

/-! ### Evaluation and monotonicity lemmas for the rounding model -/

theorem rInt_eq_of_lt_half {y : ℚ} {n : ℤ} (h1 : (n : ℚ) ≤ y) (h2 : y < n + 1)
    (h3 : y - n < 1 / 2) : rInt y = n := by
  have hf : ⌊y⌋ = n := Int.floor_eq_iff.mpr ⟨h1, h2⟩
  simp only [rInt, hf]
  rw [if_pos h3]

theorem round2_eval {q : ℚ} {n : ℤ} (h1 : (n : ℚ) ≤ q * 100) (h2 : q * 100 < n + 1)
    (h3 : q * 100 - n < 1 / 2) : round2 q = n / 100 := by
  rw [round2, rInt_eq_of_lt_half h1 h2 h3]

theorem rInt_bounds (y : ℚ) : ⌊y⌋ ≤ rInt y ∧ rInt y ≤ ⌊y⌋ + 1 := by
  simp only [rInt]
  split_ifs <;> omega

theorem rInt_mono {y z : ℚ} (h : y ≤ z) : rInt y ≤ rInt z := by
  rcases lt_or_le ⌊y⌋ ⌊z⌋ with hf | hf
  · have h1 := (rInt_bounds y).2
    have h2 := (rInt_bounds z).1
    omega
  · have hfe : ⌊y⌋ = ⌊z⌋ := le_antisymm (Int.floor_mono h) hf
    have hfq : ((⌊y⌋ : ℤ) : ℚ) = ((⌊z⌋ : ℤ) : ℚ) := by rw [hfe]
    have hyz : y - ((⌊y⌋ : ℤ) : ℚ) ≤ z - ((⌊z⌋ : ℤ) : ℚ) := by
      rw [← hfq]; linarith
    simp only [rInt]
    split_ifs <;> first
      | omega
      | (exfalso; linarith)

theorem round2_mono {q r : ℚ} (h : q ≤ r) : round2 q ≤ round2 r := by
  have hm : q * 100 ≤ r * 100 := by linarith
  have hi : (rInt (q * 100) : ℚ) ≤ (rInt (r * 100) : ℚ) :=
    Int.cast_le.mpr (rInt_mono hm)
  simp only [round2]
  linarith

theorem round2_zero : round2 0 = 0 := by
  have : round2 (0 : ℚ) = ((0 : ℤ) : ℚ) / 100 := round2_eval (by norm_num) (by norm_num) (by norm_num)
  simpa using this

theorem round2_one : round2 1 = 1 := by
  have : round2 (1 : ℚ) = ((100 : ℤ) : ℚ) / 100 := round2_eval (by norm_num) (by norm_num) (by norm_num)
  rw [this]
  norm_num

theorem round2_mem_unit {q : ℚ} (h0 : 0 ≤ q) (h1 : q ≤ 1) :
    0 ≤ round2 q ∧ round2 q ≤ 1 := by
  constructor
  · have := round2_mono h0
    rwa [round2_zero] at this
  · have := round2_mono h1
    rwa [round2_one] at this

/-! ### Supporting lemmas -/

theorem catLookup_ne_empty {k v : String} (h : catLookup k = some v) : v ≠ "" := by
  unfold catLookup at h
  cases hf : CATEGORY_MAP.find? fun p => p.1 = k with
  | none => rw [hf] at h; simp at h
  | some q =>
    rw [hf] at h
    have hm : q ∈ CATEGORY_MAP := List.mem_of_find?_eq_some hf
    have hall : ∀ p ∈ CATEGORY_MAP, p.2 ≠ "" := by decide
    have hv : v = q.2 := by simpa using h.symm
    exact hv ▸ hall q hm

theorem searchShort_ne_empty {parts : List String} :
    ∀ {l : ℕ} {v : String}, searchShort parts l = some v → v ≠ "" := by
  intro l
  induction l with
  | zero => intro v h; simp [searchShort] at h
  | succ l ih =>
    intro v h
    unfold searchShort at h
    cases hc : catLookup (joinKey parts (l + 1)) with
    | none => rw [hc] at h; exact ih h
    | some w =>
      rw [hc] at h
      have : v = w := by simpa using h.symm
      exact this ▸ catLookup_ne_empty hc

theorem get_cat_id_ne_empty (s : String) : get_cat_id s ≠ "" := by
  unfold get_cat_id
  cases h1 : catLookup (pyStrip (lowerStr s)) with
  | some v =>
    simp only [h1]
    exact catLookup_ne_empty h1
  | none =>
    simp only [h1]
    cases h2 : searchShort (splitGt (pyStrip (lowerStr s)))
        ((splitGt (pyStrip (lowerStr s))).length - 1) with
    | some v =>
      simp only [h2]
      exact searchShort_ne_empty h2
    | none =>
      simp only [h2]
      decide

/-- On a `(· ≤ ·)`-sorted rational list, `getD` is monotone in the index as
long as the larger index is in bounds. -/
theorem sorted_getD_mono {l : List ℚ} (h : l.Sorted (· ≤ ·)) {i j : ℕ}
    (hij : i ≤ j) (hj : j < l.length) : l.getD i 0 ≤ l.getD j 0 := by
  have hi : i < l.length := lt_of_le_of_lt hij hj
  have e1 : l.getD i 0 = l.get ⟨i, hi⟩ := by
    simp [List.getD_eq_getElem?_getD, List.getElem?_eq_getElem hi]
  have e2 : l.getD j 0 = l.get ⟨j, hj⟩ := by
    simp [List.getD_eq_getElem?_getD, List.getElem?_eq_getElem hj]
  rw [e1, e2]
  exact h.rel_get_of_le (Fin.mk_le_mk.mpr hij)

/-! ## Claim theorems -/

/-- Claim C3: for every category path string (including the empty one),
`get_cat_id` returns a non-empty id; it falls back to the default id
`"57990"` when nothing matches, and a full path absent from the table whose
shorter prefix is present resolves to that prefix's id
(`"Men > Sweaters > Turtleneck"` is absent but `"men > sweaters"` maps to
`"11484"`). -/
theorem C3_category_resolution :
    (∀ s : String, get_cat_id s ≠ "") ∧
    get_cat_id "" = "57990" ∧
    get_cat_id "Men > Sweaters > Turtleneck" = "11484" ∧
    get_cat_id "Totally Unknown Path" = "57990" :=
  ⟨get_cat_id_ne_empty, by decide, by decide, by decide⟩

/-- Claim C9: title truncation to the 80-character platform maximum is
idempotent, and the truncated title never exceeds 80 characters. -/
theorem C9_title_truncation (s : String) :
    truncTitle (truncTitle s) = truncTitle s ∧ (truncTitle s).length ≤ 80 := by
  constructor
  · show (⟨(s.data.take 80).take 80⟩ : String) = ⟨s.data.take 80⟩
    rw [List.take_take, min_self]
  · show (s.data.take 80).length ≤ 80
    rw [List.length_take]
    exact min_le_left _ _

/-- Claim C5: the price tiers are computed from the ascending-sorted
prices as quick_sell at index `⌊n·0.25⌋`, market = mean, premium at index
`⌊n·0.85⌋`, indices clamped to `[0, n−1]` (the code's one-sided clamps
agree with the spec's two-sided clamp on every non-empty list); in
particular `[10,12,15,18,20,25,30]` yields quick_sell 12 (index 1),
market 18.57, premium 25 (index 5). -/
theorem C5_price_tiers :
    price_recommend [10, 12, 15, 18, 20, 25, 30] =
      some ⟨12, 1857 / 100, 25, 7, 10, 30⟩ ∧
    ∀ prices : List ℚ, price_recommend prices = price_recommend_spec prices := by
  constructor
  · have hs : ([10, 12, 15, 18, 20, 25, 30] : List ℚ).Sorted (· ≤ ·) := by
      norm_num [List.sorted_cons]
    rw [price_recommend, if_neg (by simp)]
    rw [hs.insertionSort_eq]
    simp only [List.length_cons, List.length_nil]
    norm_num [listMin, listMax, round2_eval (n := 1200), round2_eval (n := 1857),
      round2_eval (n := 2500), round2_eval (n := 1000), round2_eval (n := 3000)]
  · intro prices
    unfold price_recommend price_recommend_spec
    by_cases hne : prices = []
    · simp [hne]
    · rw [if_neg hne, if_neg hne]
      have hn : 0 < (prices.insertionSort (· ≤ ·)).length := by
        rw [List.length_insertionSort]
        exact List.length_pos.mpr hne
      set n := (prices.insertionSort (· ≤ ·)).length with hn_def
      have hq : max 0 (n * 25 / 100) = min (n - 1) (max 0 (n * 25 / 100)) := by
        have : n * 25 / 100 < n := Nat.div_lt_of_lt_mul (by omega)
        omega
      have hp : min (n - 1) (n * 85 / 100) = min (n - 1) (max 0 (n * 85 / 100)) := by
        omega
      simp only [← hq, ← hp]

/-- Claim C1 counterexample: the ascending-sorted sample `[0, 10, 10, 10]`
(length 4 ≥ 3) yields quick_sell = 10 and market = 7.5, so the claimed
ordering quick_sell ≤ market ≤ premium fails on the code. -/
theorem C1_counterexample :
    ([0, 10, 10, 10] : List ℚ).Sorted (· ≤ ·) ∧
    3 ≤ ([0, 10, 10, 10] : List ℚ).length ∧
    price_recommend [0, 10, 10, 10] = some ⟨10, 15 / 2, 10, 4, 0, 10⟩ ∧
    ¬ ((10 : ℚ) ≤ 15 / 2) := by
  have hs : ([0, 10, 10, 10] : List ℚ).Sorted (· ≤ ·) := by
    norm_num [List.sorted_cons]
  refine ⟨hs, by norm_num, ?_, by norm_num⟩
  rw [price_recommend, if_neg (by simp)]
  rw [hs.insertionSort_eq]
  simp only [List.length_cons, List.length_nil]
  norm_num [listMin, listMax, round2_eval (n := 1000), round2_eval (n := 750),
    round2_eval (n := 0)]

/-- Claim C1 (amended): for every ascending-sorted sold-price sample of
length n ≥ 3, the outer tiers are ordered, quick_sell ≤ premium; the
middle tier market (the mean) can fall outside the interval. -/
theorem C1_quick_le_premium (prices : List ℚ) (_hs : prices.Sorted (· ≤ ·))
    (hn : 3 ≤ prices.length) {r : PriceRec}
    (hr : price_recommend prices = some r) : r.quick_sell ≤ r.premium := by
  have hne : prices ≠ [] := by
    intro h
    rw [h] at hn
    simp at hn
  rw [price_recommend, if_neg hne] at hr
  simp only at hr
  have hr' := (Option.some.inj hr).symm
  subst hr'
  simp only
  apply round2_mono
  have hsorted : (prices.insertionSort (· ≤ ·)).Sorted (· ≤ ·) :=
    List.sorted_insertionSort _ _
  have hlen : (prices.insertionSort (· ≤ ·)).length = prices.length :=
    List.length_insertionSort _ _
  set n := (prices.insertionSort (· ≤ ·)).length with hn_def
  have hn3 : 3 ≤ n := hlen ▸ hn
  have hq_lt : n * 25 / 100 < n := Nat.div_lt_of_lt_mul (by omega)
  have hq_le : n * 25 / 100 ≤ n * 85 / 100 :=
    Nat.div_le_div_right (Nat.mul_le_mul_left n (by norm_num))
  apply sorted_getD_mono hsorted
  · omega
  · omega

/-- Claim C1 witness: the amended theorem applied to the concrete sorted
sample `[10, 12, 15]`. -/
theorem C1_quick_le_premium_witness :
    ([10, 12, 15] : List ℚ).Sorted (· ≤ ·) ∧
    3 ≤ ([10, 12, 15] : List ℚ).length ∧
    price_recommend [10, 12, 15] = some ⟨10, 1233 / 100, 15, 3, 10, 15⟩ ∧
    (⟨10, 1233 / 100, 15, 3, 10, 15⟩ : PriceRec).quick_sell ≤
      (⟨10, 1233 / 100, 15, 3, 10, 15⟩ : PriceRec).premium := by
  have hs : ([10, 12, 15] : List ℚ).Sorted (· ≤ ·) := by
    norm_num [List.sorted_cons]
  have hr : price_recommend [10, 12, 15] = some ⟨10, 1233 / 100, 15, 3, 10, 15⟩ := by
    rw [price_recommend, if_neg (by simp)]
    rw [hs.insertionSort_eq]
    simp only [List.length_cons, List.length_nil]
    norm_num [listMin, listMax, round2_eval (n := 1000), round2_eval (n := 1233),
      round2_eval (n := 1500)]
  exact ⟨hs, by norm_num, hr, C1_quick_le_premium [10, 12, 15] hs (by norm_num) hr⟩

/-- Claim C6 counterexample: with 1 sold price and 2 active items the code
returns `round(1/3, 2) = 0.33`, which is not equal to `sold/(sold+active) =
1/3`; the claimed exact equality fails because the code rounds to two
decimals. -/
theorem C6_counterexample :
    (sold_history_stats [5] 2 []).sold_count = 1 ∧
    (sold_history_stats [5] 2 []).active_count = 2 ∧
    (sold_history_stats [5] 2 []).sell_through_rate = 33 / 100 ∧
    (33 : ℚ) / 100 ≠ (1 : ℚ) / (1 + 2) := by
  refine ⟨rfl, rfl, ?_, by norm_num⟩
  show (if 0 < ([5] : List ℚ).length + 2 then
      round2 ((([5] : List ℚ).length : ℚ) / ((([5] : List ℚ).length + 2 : ℕ) : ℚ))
    else 0) = 33 / 100
  rw [if_pos (by norm_num)]
  norm_num [round2_eval (n := 33)]

/-- Claim C6 (amended): the sell-through rate always lies in [0, 1]; it
equals `sold/(sold+active)` rounded half-even to two decimals when the
total is positive, is 0 when both counts are zero, and the average sold
price is 0 when there are no sold prices. -/
theorem C6_sell_through (sold_prices : List ℚ) (active_count : ℕ) (days : List ℤ) :
    (0 ≤ (sold_history_stats sold_prices active_count days).sell_through_rate ∧
      (sold_history_stats sold_prices active_count days).sell_through_rate ≤ 1) ∧
    (sold_prices.length + active_count = 0 →
      (sold_history_stats sold_prices active_count days).sell_through_rate = 0) ∧
    (sold_prices = [] →
      (sold_history_stats sold_prices active_count days).avg_sold_price = 0) ∧
    (0 < sold_prices.length + active_count →
      (sold_history_stats sold_prices active_count days).sell_through_rate =
        round2 ((sold_prices.length : ℚ) /
          ((sold_prices.length : ℚ) + (active_count : ℚ)))) := by
  have hcast : ((sold_prices.length + active_count : ℕ) : ℚ) =
      (sold_prices.length : ℚ) + (active_count : ℚ) := by push_cast; ring
  refine ⟨?_, ?_, ?_, ?_⟩
  · show 0 ≤ (if 0 < sold_prices.length + active_count then
        round2 ((sold_prices.length : ℚ) / ((sold_prices.length + active_count : ℕ) : ℚ))
      else 0) ∧ (if 0 < sold_prices.length + active_count then
        round2 ((sold_prices.length : ℚ) / ((sold_prices.length + active_count : ℕ) : ℚ))
      else 0) ≤ 1
    split_ifs with ht
    · have htq : (0 : ℚ) < ((sold_prices.length + active_count : ℕ) : ℚ) := by
        exact_mod_cast ht
      have h0 : (0 : ℚ) ≤ (sold_prices.length : ℚ) /
          ((sold_prices.length + active_count : ℕ) : ℚ) :=
        div_nonneg (by positivity) (le_of_lt htq)
      have h1 : (sold_prices.length : ℚ) /
          ((sold_prices.length + active_count : ℕ) : ℚ) ≤ 1 := by
        rw [div_le_one htq]
        exact_mod_cast Nat.le_add_right _ _
      exact round2_mem_unit h0 h1
    · norm_num
  · intro h0
    show (if 0 < sold_prices.length + active_count then
        round2 ((sold_prices.length : ℚ) / ((sold_prices.length + active_count : ℕ) : ℚ))
      else 0) = 0
    rw [if_neg (by omega)]
  · intro he
    show (if sold_prices = [] then 0
      else round2 (sold_prices.sum / (sold_prices.length : ℚ))) = 0
    rw [if_pos he]
  · intro ht
    show (if 0 < sold_prices.length + active_count then
        round2 ((sold_prices.length : ℚ) / ((sold_prices.length + active_count : ℕ) : ℚ))
      else 0) = _
    rw [if_pos ht, hcast]

/-- Claim C6 witness: the amended theorem instantiated at concrete inputs,
discharging each hypothesis. -/
theorem C6_sell_through_witness :
    (0 ≤ (sold_history_stats [2] 3 []).sell_through_rate ∧
      (sold_history_stats [2] 3 []).sell_through_rate ≤ 1) ∧
    (sold_history_stats [] 0 []).sell_through_rate = 0 ∧
    (sold_history_stats [] 0 []).avg_sold_price = 0 ∧
    (sold_history_stats [1] 2 []).sell_through_rate =
      round2 ((1 : ℚ) / (1 + 2)) := by
  refine ⟨(C6_sell_through [2] 3 []).1, ?_, ?_, ?_⟩
  · exact (C6_sell_through [] 0 []).2.1 (by simp)
  · exact (C6_sell_through [] 0 []).2.2.1 rfl
  · have h := (C6_sell_through [1] 2 []).2.2.2 (by norm_num)
    simpa using h

/-- Claim C2 counterexample: the sentinel strings pass through unfiltered
for the base fields — a record with brand `"null"` emits the pair
`("Brand", "null")`, and a record with color `"None"` emits
`("Color", "None")`. -/
theorem C2_counterexample :
    ("Brand", "null") ∈ build_specifics_pairs { brand := some "null" } ∧
    ("Color", "None") ∈ build_specifics_pairs { color := some "None" } := by
  constructor <;> decide

/-- Claim C2 (amended): the item-specifics output never contains a pair
whose value is the empty string (the final filter drops those); sentinel
strings such as `"null"` or `"None"` can still appear in base-field
values. -/
theorem C2_no_empty_values (d : GarmentData) {p : String × String}
    (hp : p ∈ build_specifics_pairs d) : p.2 ≠ "" := by
  have h := List.mem_filter.mp hp
  simpa using h.2

/-- Claim C2 witness: the amended theorem applied to a concrete record and
pair. -/
theorem C2_no_empty_values_witness :
    ("Brand", "Unknown") ∈ build_specifics_pairs {} ∧ ("Unknown" : String) ≠ "" :=
  ⟨by decide, @C2_no_empty_values {} ("Brand", "Unknown") (by decide)⟩

/-- Claim C7 counterexample: the scenario record carries no `gender` field,
so the department enum defaults to `"Unisex"` — the claimed
`Department = "Men"` pair is not emitted. -/
theorem C7_counterexample :
    ("Department", "Men") ∉ build_specifics_pairs
      { category := "Men > Sweaters > Cardigan", size := some "XXL",
        material := some "Wool" } ∧
    ("Department", "Unisex") ∈ build_specifics_pairs
      { category := "Men > Sweaters > Cardigan", size := some "XXL",
        material := some "Wool" } := by
  constructor <;> decide

/-- Claim C7 (amended): the record {category "Men > Sweaters > Cardigan",
size "XXL", material "Wool"} yields Department = "Unisex" (gender is
absent, so the fixed enum defaults), Size Type = "Plus" and
Outer Shell Material = "Wool". -/
theorem C7_scenario :
    build_specifics_pairs
      { category := "Men > Sweaters > Cardigan", size := some "XXL",
        material := some "Wool" } =
    [("Brand", "Unknown"), ("Size", "XXL"), ("Color", "Black"),
     ("Department", "Unisex"), ("Type", "Cardigan"), ("Style", "Casual"),
     ("Sleeve Length", "Long Sleeve"), ("Outer Shell Material", "Wool"),
     ("Size Type", "Plus"), ("Vintage", "No")] := by decide

theorem sizePairV_ne_empty (d : GarmentData) : sizePairV d ≠ "" := by
  unfold sizePairV
  split_ifs with h
  · decide
  · exact h

theorem ecOf_ne_empty (d : GarmentData) : ecOf d ≠ "" := by
  unfold ecOf
  cases hf : cmList.find? fun p => strIn p.1 (lowerStr (colorStr d)) with
  | some p =>
    have hm : p ∈ cmList := List.mem_of_find?_eq_some hf
    have hall : ∀ q ∈ cmList, q.2 ≠ "" := by decide
    exact hall p hm
  | none =>
    split_ifs with h
    · decide
    · exact h

theorem omOf_ne_empty (d : GarmentData) : omOf d ≠ "" := by
  unfold omOf
  cases hf : mmList.find? fun p => strIn p.1 (lowerStr (materialStr d)) with
  | some p =>
    have hm : p ∈ mmList := List.mem_of_find?_eq_some hf
    have hall : ∀ q ∈ mmList, q.2 ≠ "" := by decide
    exact hall p hm
  | none =>
    split_ifs with h
    · decide
    · exact h

theorem deptOf_ne_empty (g : Option String) : deptOf g ≠ "" := by
  unfold deptOf
  split <;> decide

theorem styleOf_ne_empty (d : GarmentData) : styleOf d ≠ "" := by
  unfold styleOf
  split_ifs <;> decide

theorem sleeveOf_ne_empty (d : GarmentData) : sleeveOf d ≠ "" := by
  show (if d.sleeve_length.getD "" ∈ sleeveAllowed then d.sleeve_length.getD ""
    else "Long Sleeve") ≠ ""
  split_ifs with h
  · have : ∀ s ∈ sleeveAllowed, s ≠ "" := by decide
    exact this _ h
  · decide

theorem stOf_ne_empty (d : GarmentData) : stOf d ≠ "" := by
  unfold stOf
  split_ifs <;> decide

/-- Membership of a base pair in the final filtered specifics list, given a
non-empty value. -/
theorem base_mem_pairs {d : GarmentData} {p : String × String}
    (hb : p ∈ baseSpecs d) (hv : p.2 ≠ "") : p ∈ build_specifics_pairs d :=
  List.mem_filter.mpr ⟨List.mem_append_left _ hb, by simpa using hv⟩

/-- Claim C10 counterexample: a record whose brand is whitespace-only
strips to the empty string, so the `Brand` base pair is dropped by the
final filter — the builder does not always emit all ten base pairs. -/
theorem C10_counterexample :
    "Brand" ∉ (build_specifics_pairs { brand := some " " }).map Prod.fst := by
  decide

/-- Claim C10 (amended): the builder always emits the eight base pairs
Size, Color, Department, Style, Sleeve Length, Outer Shell Material,
Size Type and Vintage, with the stated defaults for missing fields; Brand
and Type are emitted exactly when their computed value is non-empty (a
whitespace-only brand, or a category whose last `>`-segment strips to
empty, drops that pair); the empty record yields exactly the ten default
pairs. -/
theorem C10_base_pairs :
    (build_specifics_pairs {} =
      [("Brand", "Unknown"), ("Size", "See Description"), ("Color", "Black"),
       ("Department", "Unisex"), ("Type", "Clothing"), ("Style", "Casual"),
       ("Sleeve Length", "Long Sleeve"), ("Outer Shell Material", "Cotton"),
       ("Size Type", "Regular"), ("Vintage", "No")]) ∧
    (∀ d : GarmentData,
      ("Size", sizePairV d) ∈ build_specifics_pairs d ∧
      ("Color", ecOf d) ∈ build_specifics_pairs d ∧
      ("Department", deptOf d.gender) ∈ build_specifics_pairs d ∧
      ("Style", styleOf d) ∈ build_specifics_pairs d ∧
      ("Sleeve Length", sleeveOf d) ∈ build_specifics_pairs d ∧
      ("Outer Shell Material", omOf d) ∈ build_specifics_pairs d ∧
      ("Size Type", stOf d) ∈ build_specifics_pairs d ∧
      ("Vintage", if d.vintage then "Yes" else "No") ∈ build_specifics_pairs d) ∧
    (∀ d : GarmentData, brandStr d ≠ "" →
      ("Brand", brandStr d) ∈ build_specifics_pairs d) ∧
    (∀ d : GarmentData, gtypeOf d.category ≠ "" →
      ("Type", gtypeOf d.category) ∈ build_specifics_pairs d) := by
  refine ⟨by decide, ?_, ?_, ?_⟩
  · intro d
    refine ⟨?_, ?_, ?_, ?_, ?_, ?_, ?_, ?_⟩
    · exact base_mem_pairs (by simp [baseSpecs]) (sizePairV_ne_empty d)
    · exact base_mem_pairs (by simp [baseSpecs]) (ecOf_ne_empty d)
    · exact base_mem_pairs (by simp [baseSpecs]) (deptOf_ne_empty d.gender)
    · exact base_mem_pairs (by simp [baseSpecs]) (styleOf_ne_empty d)
    · exact base_mem_pairs (by simp [baseSpecs]) (sleeveOf_ne_empty d)
    · exact base_mem_pairs (by simp [baseSpecs]) (omOf_ne_empty d)
    · exact base_mem_pairs (by simp [baseSpecs]) (stOf_ne_empty d)
    · refine base_mem_pairs (by simp [baseSpecs]) ?_
      cases d.vintage <;> decide
  · intro d hb
    exact base_mem_pairs (by simp [baseSpecs]) hb
  · intro d ht
    exact base_mem_pairs (by simp [baseSpecs]) ht

/-- Claim C10 witness: the amended theorem's conditional parts applied to
the empty record, whose Brand and Type values are non-empty. -/
theorem C10_base_pairs_witness :
    brandStr {} ≠ "" ∧ gtypeOf (GarmentData.category {}) ≠ "" ∧
    ("Brand", brandStr {}) ∈ build_specifics_pairs {} ∧
    ("Type", gtypeOf (GarmentData.category {})) ∈ build_specifics_pairs {} :=
  ⟨by decide, by decide, C10_base_pairs.2.2.1 {} (by decide),
   C10_base_pairs.2.2.2 {} (by decide)⟩

/-- Claim C4 counterexample: with every upload failed the photo list is
empty, the picture XML is empty, and an acknowledged submission returns the
plain success dict `{success, item_id, url}` — no warning key of any kind
is present. -/
theorem C4_counterexample :
    pics_of [none, none, none] = [] ∧
    pictureXml [none, none, none] = "" ∧
    publishResult { ack := some "Success", item_id := some "123" } =
      [("success", JVal.b true), ("item_id", JVal.s "123"),
       ("url", JVal.s "https://www.ebay.com/itm/123")] ∧
    "warning" ∉ (publishResult
      { ack := some "Success", item_id := some "123" }).map Prod.fst := by
  refine ⟨rfl, rfl, by decide, by decide⟩

/-- Claim C4 (amended): when every upload fails the submission still
proceeds with zero photos, but the result returned to the caller carries
NO warning flag: its keys are exactly `success, item_id, url` or
`success, error`, for any response, indistinguishable from a publish whose
uploads all succeeded. -/
theorem C4_no_warning_flag (n : ℕ) (resp : EbayResponse) :
    pictureXml (List.replicate n none) = "" ∧
    publishResult resp ≠ [] ∧
    ((publishResult resp).map Prod.fst = ["success", "item_id", "url"] ∨
      (publishResult resp).map Prod.fst = ["success", "error"]) ∧
    "warning" ∉ (publishResult resp).map Prod.fst := by
  have hpics : pics_of (List.replicate n none) = [] := by
    unfold pics_of
    induction n with
    | zero => rfl
    | succ m ih => simp [List.replicate_succ, ih]
  refine ⟨?_, ?_, ?_, ?_⟩
  · rw [pictureXml, hpics]
    rfl
  · unfold publishResult
    split_ifs <;> simp
  · unfold publishResult
    split_ifs <;> simp
  · unfold publishResult
    split_ifs <;> simp

/-! `C4_no_warning_flag` has no propositional hypothesis; its universally
quantified statement instantiates at any batch size and response. -/

/-- Claim C8 counterexample: a rejected response carrying no error
messages yields the fixed fallback string `"Unknown eBay error"`, not the
newline-join of the (zero) message texts, which is `""` — so the error
field is not always the join of the response's messages. -/
theorem C8_counterexample :
    publishResult {} =
      [("success", JVal.b false), ("error", JVal.s "Unknown eBay error")] ∧
    joinStr "\n" ([] : List String) = "" ∧
    ("Unknown eBay error" : String) ≠ "" := by
  refine ⟨by decide, rfl, by decide⟩

/-- Claim C8 (amended): for every submission response whose
acknowledgement is missing or not Success/Warning, the result has success
= false, and whenever the newline-join of the response's non-empty
LongMessage texts is itself non-empty, the error field is exactly that
join (a message-free rejection falls back to "Unknown eBay error"). -/
theorem C8_rejected (resp : EbayResponse)
    (hack : ¬(resp.ack = some "Success" ∨ resp.ack = some "Warning")) :
    (publishResult resp).lookup "success" = some (JVal.b false) ∧
    (joinStr "\n" (resp.long_messages.filter fun m => m ≠ "") ≠ "" →
      (publishResult resp).lookup "error" =
        some (JVal.s (joinStr "\n" (resp.long_messages.filter fun m => m ≠ "")))) := by
  constructor
  · rw [publishResult, if_neg hack]
    rfl
  · intro hj
    rw [publishResult, if_neg hack]
    show some (JVal.s (if joinStr "\n" (resp.long_messages.filter fun m => m ≠ "") = ""
        then "Unknown eBay error"
        else joinStr "\n" (resp.long_messages.filter fun m => m ≠ ""))) =
      some (JVal.s (joinStr "\n" (resp.long_messages.filter fun m => m ≠ "")))
    rw [if_neg hj]

/-- Claim C8 witness: a response with no acknowledgement and two error
messages yields success = false and the two messages newline-joined. -/
theorem C8_rejected_witness :
    ¬((({ long_messages := ["First error", "Second error"] } : EbayResponse).ack =
        some "Success") ∨
      (({ long_messages := ["First error", "Second error"] } : EbayResponse).ack =
        some "Warning")) ∧
    (publishResult { long_messages := ["First error", "Second error"] }).lookup
      "success" = some (JVal.b false) ∧
    (publishResult { long_messages := ["First error", "Second error"] }).lookup
      "error" = some (JVal.s "First error\nSecond error") := by
  have h := C8_rejected { long_messages := ["First error", "Second error"] }
    (by decide)
  have hj : joinStr "\n"
      ((["First error", "Second error"] : List String).filter fun m => m ≠ "") =
      "First error\nSecond error" := by decide
  refine ⟨by decide, h.1, ?_⟩
  have he := h.2 (by rw [hj]; decide)
  rwa [hj] at he

end Apoc
